import Mathlib

/-!
Verification of the skygear-server session core.

Shallow embedding of the session subsystem of `lgwray/skygear-server`:

* the resolution middleware `pkg/auth/dependency/auth/session_middleware.go`
  (`Middleware.Handle`, `Middleware.resolve`, `Middleware.resolveSession`),
  translated directly from the Go source;
* the session provider (`Create`, `GetByToken`, `Access`, `Invalidate`,
  `List`) whose implementation file is not part of the sources at hand —
  only its test `pkg/core/auth/session/provider_impl_test.go` is.  Those
  operations are modelled from the specification (§3, §4.1–§4.3, §7),
  adjusted wherever the in-repo test pins the behaviour differently
  (each such adjustment is called out in the doc comment of the
  definition concerned).

Go `time.Time` values are embedded as `Int` seconds; `t.After(u)` is the
strict comparison `u < t`.  Fallible Go functions returning `(T, error)`
are embedded as `Except GoError T`; a Go `error` result alone becomes
`Option GoError` (`none` = nil error).
-/

namespace Skygear

/-- Decidable equality for `Except`, so that concrete runs of the
fallible operations can be checked by `decide`. -/
instance {ε α : Type} [DecidableEq ε] [DecidableEq α] : DecidableEq (Except ε α) := fun a b =>
  match a, b with
  | .ok x, .ok y =>
    if h : x = y then .isTrue (by rw [h]) else .isFalse (by simp [h])
  | .ok _, .error _ => .isFalse (by simp)
  | .error _, .ok _ => .isFalse (by simp)
  | .error e, .error f =>
    if h : e = f then .isTrue (by rw [h]) else .isFalse (by simp [h])

/-- Errors of the subsystem.  `sessionNotFound` is the provider's
`ErrSessionNotFound`, `invalidSession` is the middleware's
`ErrInvalidSession` (session_middleware.go:13), and `other` stands for
any remaining Go error value (backing-store failures and the like). -/
inductive GoError where
  | sessionNotFound
  | invalidSession
  | other (msg : String)
deriving Repr, DecidableEq

/-- Modelled from the spec: `config.APIClientConfiguration` (§3
ClientConfig) — the struct itself is not among the sources; its fields
and their use are fixed by §3/§4.3 and by the literals appearing in
`provider_impl_test.go` (e.g. lines 294–295). Lifetimes are in seconds. -/
structure APIClientConfiguration where
  accessTokenLifetime : Int
  sessionIdleTimeout : Int
  refreshTokenLifetime : Int
  refreshTokenDisabled : Bool
  disabled : Bool
deriving Repr, DecidableEq

/-- Modelled from the spec: `auth.SessionAccessEvent` (§3 AccessEvent).
Only the components the claims observe are kept: the timestamp, the
user agent, and the extra-info payload (abstracted to the raw header
value, emptied when oversized — §3/§6). -/
structure AccessEvent where
  timestamp : Int
  userAgent : String
  extra : String
deriving Repr, DecidableEq

/-- The Go zero value of `auth.SessionAccessEvent`. -/
def AccessEvent.zero : AccessEvent := ⟨0, "", ""⟩

/-- The slice of an `*http.Request` that `newAccessEvent` consumes:
the `User-Agent` header and the `X-Skygear-Extra-Info` header. -/
structure Request where
  userAgent : String
  extraInfo : String
deriving Repr, DecidableEq

/-- Modelled from the spec: the fixed size threshold beyond which the
extra-info payload is discarded (§3: "If the serialized `Extra` payload
exceeds a fixed size threshold, it is discarded and replaced with an
empty map"). -/
def extraDataSizeLimit : Nat := 1024

/-- Modelled from the spec: `newAccessEvent(now, req)`
(`provider_impl_test.go:316–372`): records the current timestamp, the
user agent, and the extra-info header, dropping the latter to empty when
oversized. -/
def newAccessEvent (now : Int) (req : Request) : AccessEvent :=
  { timestamp := now
    userAgent := req.userAgent
    extra := if extraDataSizeLimit < req.extraInfo.length then "" else req.extraInfo }

/-- Go struct `auth.Session` (§3): one authenticated session for one principal on
one client. -/
structure Session where
  id : String
  clientID : String
  userID : String
  principalID : String
  accessToken : String
  refreshToken : String
  createdAt : Int
  accessTokenCreatedAt : Int
  accessedAt : Int
  initialAccess : AccessEvent
  lastAccess : AccessEvent
deriving Repr, DecidableEq

/-- Go type `auth.SessionTokenKind`: selector between access-token lookup and
refresh-token lookup (§ Glossary "Kind"). -/
inductive SessionTokenKind where
  | accessToken
  | refreshToken
deriving Repr, DecidableEq

/-- Length of the random secret component of a token (the test's
`tokenLength`; its exact value is immaterial to every claim). -/
def tokenLength : Nat := 32

/-- Modelled from the spec (§4.1): a bearer token is the session `ID`
and the secret joined by the fixed delimiter `"."`, which may occur in
neither component. -/
def encodeToken (id secret : String) : String := id ++ "." ++ secret

/-- Split a character list at its unique `'.'`: `none` when there is no
`'.'` or more than one. -/
def splitTokenChars : List Char → Option (List Char × List Char)
  | [] => none
  | c :: cs =>
    if c = '.' then
      if cs.contains '.' then none else some ([], cs)
    else
      match splitTokenChars cs with
      | some (idChars, secretChars) => some (c :: idChars, secretChars)
      | none => none

/-- Modelled from the spec (§4.1/§9): split a presented token into its
ID component and its secret component at the delimiter; a token that is
not of the shape `id ++ "." ++ secret` (with `"."` in neither component)
has no decoding. -/
def decodeToken (token : String) : Option (String × String) :=
  match splitTokenChars token.data with
  | some (idChars, secretChars) => some (String.mk idChars, String.mk secretChars)
  | none => none

/-- Modelled from the spec (§4.3 expiry policy), with one correction
pinned by the in-repo test: zero `AccessTokenLifetime` is NOT "no
limit" — `provider_impl_test.go:218–223` ("should reject if session is
expired") uses the all-zero client configuration of lines 30–33 and
expects `ErrSessionNotFound` after advancing the clock, and the List
fixture (lines 289–295) must set `AccessTokenLifetime: 1000` explicitly
for its sessions to survive.  The idle-timeout dimension is skipped when
zero (pinned by the same List fixture: `SessionIdleTimeout` is zero
there and sessions accessed 400s before "now" are still listed); the
refresh-token lifetime follows the spec's zero-means-no-limit rule,
which no test contradicts. -/
def checkSessionExpired (s : Session) (now : Int) (cfg : APIClientConfiguration)
    (kind : SessionTokenKind) : Bool :=
  let tokenExpired :=
    match kind with
    | .accessToken => decide (s.accessTokenCreatedAt + cfg.accessTokenLifetime < now)
    | .refreshToken =>
        decide (0 < cfg.refreshTokenLifetime) &&
          decide (s.createdAt + cfg.refreshTokenLifetime < now)
  let idleExpired :=
    decide (0 < cfg.sessionIdleTimeout) &&
      decide (s.accessedAt + cfg.sessionIdleTimeout < now)
  tokenExpired || idleExpired

/-- The provider's read-only collaborators (`providerImpl` fields): the
current request, the current client identity (`authContext`), the
client-configuration registry, and the time source's current instant. -/
structure ProviderCtx where
  req : Request
  clientID : String
  clientConfigs : String → Option APIClientConfiguration
  now : Int

/-- The mutable stores behind the provider: the session store (keyed by
session ID — kept as a list with unique IDs), the access-event store,
and the counter feeding ID/secret generation (standing in for the
UUID/random generators). -/
structure ProviderState where
  sessions : List Session
  accessEvents : List AccessEvent
  counter : Nat

/-- Session-store lookup by session ID (`store.Get`). -/
def storeGet (sessions : List Session) (id : String) : Option Session :=
  sessions.find? (fun s => s.id == id)

/-- Deterministic stand-in for the random secret generator: a digit
string padded to `tokenLength` (contains no delimiter). -/
def genSecret (seed : Nat) : String :=
  let base := "t" ++ toString seed
  base ++ String.mk (List.replicate (tokenLength - base.length) 'x')

/-- The client-validity and expiry gate shared by `GetByToken` and
`List` (§4.2/§4.3): the owning client's configuration must exist, the
client must not be disabled, and the session must not be expired at the
current instant for the given kind. -/
def clientValidFor (ctx : ProviderCtx) (s : Session) (kind : SessionTokenKind) : Bool :=
  match ctx.clientConfigs s.clientID with
  | none => false
  | some cfg => !cfg.disabled && !checkSessionExpired s ctx.now cfg kind

/-- Modelled from the spec: `providerImpl.Create` (§4.2), pinned by
`provider_impl_test.go:56–124`: stamps `CreatedAt = AccessedAt =
AccessTokenCreatedAt = now`, sets `InitialAccess` to the freshly built
access event, issues the access token, issues a refresh token only when
the client's configuration does not disable it, persists the session and
appends the access event to the event store.  One divergence from the
spec's words, pinned by the test: the expected session literal of lines
60–71 omits `LastAccess` (a `ShouldResemble` deep equality), so creation
leaves `LastAccess` at its zero value rather than setting it to the new
event. -/
def Create (ctx : ProviderCtx) (st : ProviderState) (userID principalID : String) :
    Session × ProviderState :=
  let now := ctx.now
  let event := newAccessEvent now ctx.req
  let cfg := (ctx.clientConfigs ctx.clientID).getD ⟨0, 0, 0, false, false⟩
  let id := "sid" ++ toString st.counter
  let sess : Session :=
    { id := id
      clientID := ctx.clientID
      userID := userID
      principalID := principalID
      accessToken := encodeToken id (genSecret (2 * st.counter))
      refreshToken :=
        if cfg.refreshTokenDisabled then "" else encodeToken id (genSecret (2 * st.counter + 1))
      createdAt := now
      accessTokenCreatedAt := now
      accessedAt := now
      initialAccess := event
      lastAccess := AccessEvent.zero }
  (sess,
    { sessions := st.sessions ++ [sess]
      accessEvents := st.accessEvents ++ [event]
      counter := st.counter + 1 })

/-- Modelled from the spec: `providerImpl.GetByToken` (§4.1/§4.2/§7),
pinned by `provider_impl_test.go:127–224`: decode the token; reject an
empty secret component outright (§4.1: "a token with an empty secret
component never matches"); look the session up by the embedded ID;
compare the presented token against the stored field matching the
requested kind, rejecting an empty stored field; reject sessions of a
client other than the current request's client (test lines 182–187);
reject a missing or disabled client configuration and an expired
session.  Every rejection is `ErrSessionNotFound` (§7). -/
def GetByToken (ctx : ProviderCtx) (st : ProviderState) (token : String)
    (kind : SessionTokenKind) : Except GoError Session :=
  match decodeToken token with
  | none => .error .sessionNotFound
  | some (id, secret) =>
    if secret = "" then .error .sessionNotFound
    else
      match storeGet st.sessions id with
      | none => .error .sessionNotFound
      | some s =>
        let expected := match kind with
          | .accessToken => s.accessToken
          | .refreshToken => s.refreshToken
        if expected = "" then .error .sessionNotFound
        else if token ≠ expected then .error .sessionNotFound
        else if s.clientID ≠ ctx.clientID then .error .sessionNotFound
        else if clientValidFor ctx s kind then .ok s
        else .error .sessionNotFound

/-- Modelled from the spec: `providerImpl.Access` (§4.2), pinned by
`provider_impl_test.go:226–252`: sets `AccessedAt = now`, computes a new
access event from the current request and stores it as `LastAccess`,
persists the updated session and appends the event to the event store;
`InitialAccess`, `CreatedAt` and the token fields are untouched. -/
def Access (ctx : ProviderCtx) (st : ProviderState) (s : Session) :
    Session × ProviderState :=
  let now := ctx.now
  let event := newAccessEvent now ctx.req
  let s2 := { s with accessedAt := now, lastAccess := event }
  (s2,
    { st with
        sessions := st.sessions.map (fun t => if t.id == s.id then s2 else t)
        accessEvents := st.accessEvents ++ [event] })

/-- Modelled from the spec: `providerImpl.Invalidate` (§4.2/§7), pinned
by `provider_impl_test.go:254–276`: deletes the session with the given
ID if present; deleting a non-existent ID is not an error (the operation
never fails, so it returns the new store alone). -/
def Invalidate (st : ProviderState) (sessionID : String) : ProviderState :=
  { st with sessions := st.sessions.filter (fun s => s.id ≠ sessionID) }

/-- Modelled from the spec: `providerImpl.List` (§4.2), pinned by
`provider_impl_test.go:278–314`: all sessions of the user across all
clients, each filtered through the same client-validity and expiry gate
as `GetByToken` (access-token kind); there is no current-client filter
(the List fixture returns sessions of both `web-app` and
`mobile-app`). -/
def ListSessions (ctx : ProviderCtx) (st : ProviderState) (userID : String) :
    List Session :=
  st.sessions.filter (fun s => s.userID == userID && clientValidFor ctx s .accessToken)

/-!
Resolution middleware (session_middleware.go).

A resolver's `Resolve(rw, r) -> (AuthSession, error)` outcome is the
pair of its optional session and its optional error.  The collaborators
behind `Middleware.resolve` — `AuthInfoStore.GetAuth`,
`AccessEvents.RecordAccess`, and the transaction wrapper `db.ReadOnly`
over `TxContext` — are oracles in the environment; every call the
middleware makes to one of them is also logged as a trace event, so that
frame properties ("no lookup happened", "inside the transaction scope")
are expressible.
-/

/-- The outcome of one `SessionResolver.Resolve` call: the returned
session and the returned error. -/
structure ResolverResult where
  session : Option Session
  err : Option GoError
deriving Repr, DecidableEq

/-- The user record fetched by `AuthInfoStore.GetAuth`
(`authinfo.AuthInfo`), reduced to the field the middleware consumes. -/
structure AuthInfo where
  userID : String
deriving Repr, DecidableEq

/-- Observable calls made while handling one request: transaction
begin/rollback, the `i`-th resolver invocation, a user-record lookup,
and an access-event recording. -/
inductive MWEvent where
  | txBegin
  | txRollback
  | resolverCall (i : Nat)
  | getAuthCall (userID : String)
  | recordAccessCall (event : AccessEvent)
deriving Repr, DecidableEq

/-- Environment of `Middleware`: the two resolver outcomes for the
request at hand (cookie/IDP first, header/access-token second), the
`GetAuth` and `RecordAccess` oracles, and the outcome of `BeginTx` on
the request's `TxContext`. -/
structure MWEnv where
  idp : ResolverResult
  atk : ResolverResult
  getAuth : String → Except GoError AuthInfo
  recordAccess : Session → AccessEvent → Option GoError
  beginTx : Option GoError

/-- Go method `Middleware.resolveSession` (session_middleware.go:72–92): the loop
over `[IDPSessionResolver, AccessTokenSessionResolver]` carrying the
`isInvalid` flag, returning the pair `(session, error)` together with
the number of resolvers actually invoked. -/
def resolveSessionLoop : List ResolverResult → Bool → (Option Session × Option GoError) × Nat
  | [], isInvalid =>
    ((none, if isInvalid then some .invalidSession else none), 0)
  | r :: rest, isInvalid =>
    if r.err = some .invalidSession then
      -- continue to attempt resolving, remembering the invalid signal
      let (res, n) := resolveSessionLoop rest true
      (res, n + 1)
    else
      match r.err with
      | some e => ((none, some e), 1)
      | none =>
        match r.session with
        | some s => ((some s, none), 1)
        | none =>
          let (res, n) := resolveSessionLoop rest isInvalid
          (res, n + 1)

/-- Go method `Middleware.resolveSession` applied to the fixed resolver list
`[m.IDPSessionResolver, m.AccessTokenSessionResolver]` with
`isInvalid = false`. -/
def resolveSession (idp atk : ResolverResult) : Option Session × Option GoError :=
  (resolveSessionLoop [idp, atk] false).1

/-- How many of the two resolvers `Middleware.resolveSession` invokes. -/
def resolversInvoked (idp atk : ResolverResult) : Nat :=
  (resolveSessionLoop [idp, atk] false).2

/-- Result triple of `Middleware.resolve`: the named returns
`(session, user, err)`. -/
abbrev MWResult := Option Session × Option AuthInfo × Option GoError

/-- The resolver-invocation events of one `resolveSession` run. -/
def resolverEvents (env : MWEnv) : List MWEvent :=
  (List.range (resolversInvoked env.idp env.atk)).map MWEvent.resolverCall

/-- The closure passed to `db.ReadOnly` inside `Middleware.resolve`
(session_middleware.go:49–68): resolve the session; on no credentials
return nothing; otherwise fetch the owning user record with `GetAuth`
and record the session's `LastAccess` event (`GetAccessInfo().LastAccess`)
with `RecordAccess`, propagating the first error.  The trace lists the
collaborator calls made, in order. -/
def resolveBody (env : MWEnv) : MWResult × List MWEvent :=
  match resolveSession env.idp env.atk with
  | (_, some e) => ((none, none, some e), resolverEvents env)
  | (none, none) => ((none, none, none), resolverEvents env)
  | (some s, none) =>
    match env.getAuth s.userID with
    | .error e => ((some s, none, some e), resolverEvents env ++ [.getAuthCall s.userID])
    | .ok u =>
      match env.recordAccess s s.lastAccess with
      | some e =>
        ((some s, some u, some e),
          resolverEvents env ++ [.getAuthCall s.userID, .recordAccessCall s.lastAccess])
      | none =>
        ((some s, some u, none),
          resolverEvents env ++ [.getAuthCall s.userID, .recordAccessCall s.lastAccess])

/-- Modelled from the spec: `db.ReadOnly(tx, do)` (§5/§6
`WithReadOnlyTx(fn)`; compare `db.WithTx` in `pkg/core/db/context.go`,
which is in the sources): begin a transaction — on failure return the
begin error without running the body — run the body, then end the
read-only scope by rolling back.  The rollback itself is modelled as
always succeeding. -/
def readOnlyWrap (beginErr : Option GoError) (body : MWResult × List MWEvent) :
    MWResult × List MWEvent :=
  match beginErr with
  | some e => ((none, none, some e), [])
  | none => (body.1, .txBegin :: body.2 ++ [.txRollback])

/-- Go method `Middleware.resolve` (session_middleware.go:48–70): the body wrapped
in the read-only transaction scope. -/
def resolve (env : MWEnv) : MWResult × List MWEvent :=
  readOnlyWrap env.beginTx (resolveBody env)

/-- The tri-state authentication outcome the middleware attaches for
downstream handling (§4.4/§6), plus the panic case of
session_middleware.go:38 for non-domain errors. -/
inductive AuthnOutcome where
  | invalid
  | authenticated (s : Session) (u : AuthInfo)
  | anonymous
  | panicked (e : GoError)
deriving Repr, DecidableEq

/-- Go method `Middleware.Handle` (session_middleware.go:31–46): classify the
result of `resolve` — `ErrInvalidSession` marks the request invalid, any
other error panics, a resolved session yields the authenticated context,
and otherwise the request proceeds anonymously. -/
def handle (env : MWEnv) : AuthnOutcome × List MWEvent :=
  match resolve env with
  | ((s?, u?, some .invalidSession), tr) =>
    -- s? and u? are discarded: the invalid signal wins
    let _ := s?
    let _ := u?
    (.invalid, tr)
  | ((_, _, some e), tr) => (.panicked e, tr)
  | ((some s, some u, none), tr) => (.authenticated s u, tr)
  | ((some _, none, none), tr) => (.panicked (.other "nil user record"), tr)
  | ((none, _, none), tr) => (.anonymous, tr)

/-!
Concrete fixtures.

Mirroring the fixtures of `provider_impl_test.go`: the `web-app` client
with the all-zero configuration (lines 30–33), the stored session
`session-id` with tokens `session-id.access-token` /
`session-id.refresh-token` (lines 128–139), the initial instant as 0 and
the advanced instant 1000000 seconds later (line 219).
-/

/-- The all-zero `APIClientConfiguration{}` of the test (lines 30–33). -/
def cfgZero : APIClientConfiguration := ⟨0, 0, 0, false, false⟩

/-- The test request: `User-Agent: SDK` with a small extra-info header. -/
def reqFixture : Request := ⟨"SDK", "device_name=Device"⟩

/-- The stored fixture session of `provider_impl_test.go:128–139`. -/
def sessionFixture : Session :=
  { id := "session-id"
    clientID := "web-app"
    userID := "user-id"
    principalID := "principal-id"
    accessToken := "session-id.access-token"
    refreshToken := "session-id.refresh-token"
    createdAt := 0
    accessTokenCreatedAt := 0
    accessedAt := 0
    initialAccess := AccessEvent.zero
    lastAccess := AccessEvent.zero }

/-- Client registry holding only `web-app`, with the all-zero config. -/
def webAppConfigs : String → Option APIClientConfiguration :=
  fun c => if c = "web-app" then some cfgZero else none

/-- Provider context at the initial instant, as `web-app`. -/
def ctxT0 : ProviderCtx := ⟨reqFixture, "web-app", webAppConfigs, 0⟩

/-- Provider context after `AdvanceSeconds(1000000)` (test line 219). -/
def ctxLater : ProviderCtx := ⟨reqFixture, "web-app", webAppConfigs, 1000000⟩

/-- Store holding exactly the fixture session. -/
def stFixture : ProviderState := ⟨[sessionFixture], [], 0⟩

/-- Store whose fixture session has an empty stored access token
(test lines 163–171). -/
def stEmptyAccessToken : ProviderState :=
  ⟨[{ sessionFixture with accessToken := "" }], [], 0⟩

example : GetByToken ctxT0 stFixture "session-id.access-token" .accessToken =
    .ok sessionFixture := by decide
example : GetByToken ctxT0 stFixture "session-id.refresh-token" .refreshToken =
    .ok sessionFixture := by decide
example : GetByToken ctxT0 stFixture "session-id.access-token" .refreshToken =
    .error .sessionNotFound := by decide
example : GetByToken ctxT0 stFixture "session-id." .accessToken =
    .error .sessionNotFound := by decide
example : GetByToken ctxT0 stEmptyAccessToken "session-id." .accessToken =
    .error .sessionNotFound := by decide
example : GetByToken ctxT0 stFixture "invalid-token" .accessToken =
    .error .sessionNotFound := by decide
example : GetByToken ctxLater stFixture "session-id.access-token" .accessToken =
    .error .sessionNotFound := by decide
example : GetByToken ctxLater stFixture "session-id.refresh-token" .refreshToken =
    .ok sessionFixture := by decide
example : (Create ctxT0 ⟨[], [], 0⟩ "user-id" "principal-id").1.lastAccess =
    AccessEvent.zero := by decide

/-!
Theorems settling the claims.
-/

/-- The priority protocol of §4.4 steps 1–5, written as claim C1 states
it: invoke the cookie (IDP) resolver first; a session from it is
returned outright; `ErrInvalidSession` is remembered and resolution
continues to the header resolver under the same rule; any other resolver
error aborts immediately; when no resolver yields a session, the result
is `ErrInvalidSession` exactly when some resolver signalled invalid, and
the no-credentials result `(nil, nil)` otherwise. -/
def resolveProtocolSpec (idp atk : ResolverResult) : Option Session × Option GoError :=
  if idp.err = some .invalidSession then
    -- invalid remembered; header resolver decides, `nil` falls back to invalid
    if atk.err = some .invalidSession then (none, some .invalidSession)
    else
      match atk.err with
      | some e => (none, some e)
      | none =>
        match atk.session with
        | some s => (some s, none)
        | none => (none, some .invalidSession)
  else
    match idp.err with
    | some e => (none, some e)
    | none =>
      match idp.session with
      | some s => (some s, none)
      | none =>
        if atk.err = some .invalidSession then (none, some .invalidSession)
        else
          match atk.err with
          | some e => (none, some e)
          | none =>
            match atk.session with
            | some s => (some s, none)
            | none => (none, none)

/-- C1: `Middleware.resolveSession` implements the priority protocol for
every pair of resolver outcomes — it coincides with the protocol of §4.4
as claim C1 states it, and when the cookie resolver yields a session
that session is returned with the header resolver never invoked (only
one resolver call is made). -/
theorem C1_resolveSession_implements_priority_protocol (idp atk : ResolverResult) :
    resolveSession idp atk = resolveProtocolSpec idp atk ∧
    (∀ s, idp = ⟨some s, none⟩ →
      resolveSession idp atk = (some s, none) ∧ resolversInvoked idp atk = 1) := by
  constructor
  · obtain ⟨s1, e1⟩ := idp
    obtain ⟨s2, e2⟩ := atk
    rcases e1 with _ | g1
    · rcases s1 with _ | s
      · rcases e2 with _ | g2
        · rcases s2 with _ | t <;> rfl
        · cases g2 <;> rfl
      · rfl
    · cases g1 with
      | sessionNotFound => rfl
      | other m => rfl
      | invalidSession =>
        rcases e2 with _ | g2
        · rcases s2 with _ | t <;> rfl
        · cases g2 <;> rfl
  · rintro s rfl
    exact ⟨rfl, rfl⟩

/-- Closed instance of C1: the cookie resolver yields the fixture
session while the header resolver would report invalid; the session
wins and a single resolver was invoked. -/
theorem C1_witness :
    resolveSession ⟨some sessionFixture, none⟩ ⟨none, some .invalidSession⟩ =
        (some sessionFixture, none) ∧
      resolversInvoked ⟨some sessionFixture, none⟩ ⟨none, some .invalidSession⟩ = 1 :=
  (C1_resolveSession_implements_priority_protocol
      ⟨some sessionFixture, none⟩ ⟨none, some .invalidSession⟩).2 sessionFixture rfl

/-- Lemma about `resolveBody` after a successful resolution: the user record is
fetched, and on success the `LastAccess` event is recorded; the first
failure is propagated together with the calls made so far. -/
lemma resolveBody_of_found (env : MWEnv) (s : Session)
    (hr : resolveSession env.idp env.atk = (some s, none)) :
    resolveBody env =
      match env.getAuth s.userID with
      | .error e => ((some s, none, some e), resolverEvents env ++ [.getAuthCall s.userID])
      | .ok u =>
        match env.recordAccess s s.lastAccess with
        | some e =>
          ((some s, some u, some e),
            resolverEvents env ++ [.getAuthCall s.userID, .recordAccessCall s.lastAccess])
        | none =>
          ((some s, some u, none),
            resolverEvents env ++ [.getAuthCall s.userID, .recordAccessCall s.lastAccess]) := by
  unfold resolveBody
  rw [hr]

/-- Lemma about `resolve` when `BeginTx` succeeds: the body runs between the
transaction begin and the closing rollback. -/
lemma resolve_of_beginTx_ok (env : MWEnv) (hb : env.beginTx = none) :
    resolve env = ((resolveBody env).1, .txBegin :: (resolveBody env).2 ++ [.txRollback]) := by
  unfold resolve readOnlyWrap
  rw [hb]

/-- C9: when resolution yields a session, the middleware fetches the
owning user record and records the session's `LastAccess` event, and
resolution, lookup and recording all happen strictly between the
`BeginTx` and the rollback of the one read-only transaction; the
downstream outcome is `authenticated(session, user)` exactly when both
steps succeed. -/
theorem C9_resolve_fetches_user_and_records_access_in_tx (env : MWEnv) (s : Session)
    (hb : env.beginTx = none)
    (hr : resolveSession env.idp env.atk = (some s, none)) :
    (∀ e, env.getAuth s.userID = .error e →
      resolve env =
        ((some s, none, some e),
          .txBegin :: (resolverEvents env ++ [.getAuthCall s.userID]) ++ [.txRollback])) ∧
    (∀ u, env.getAuth s.userID = .ok u →
      resolve env =
        ((some s, some u, env.recordAccess s s.lastAccess),
          .txBegin ::
            (resolverEvents env ++ [.getAuthCall s.userID, .recordAccessCall s.lastAccess]) ++
            [.txRollback])) ∧
    (∀ u, (handle env).1 = .authenticated s u ↔
      env.getAuth s.userID = .ok u ∧ env.recordAccess s s.lastAccess = none) := by
  have hbody := resolveBody_of_found env s hr
  have hres := resolve_of_beginTx_ok env hb
  refine ⟨?_, ?_, ?_⟩
  · intro e hga
    rw [hga] at hbody
    rw [hres, hbody]
  · intro u hga
    rw [hga] at hbody
    rcases hrec : env.recordAccess s s.lastAccess with _ | e <;>
      rw [hrec] at hbody <;> rw [hres, hbody]
  · intro u
    constructor
    · intro h
      rcases hga : env.getAuth s.userID with e | u'
      · rw [hga] at hbody
        unfold handle at h
        rw [hres, hbody] at h
        cases e <;> simp at h
      · rw [hga] at hbody
        rcases hrec : env.recordAccess s s.lastAccess with _ | e
        · rw [hrec] at hbody
          unfold handle at h
          rw [hres, hbody] at h
          simp at h
          subst h
          exact ⟨rfl, rfl⟩
        · rw [hrec] at hbody
          unfold handle at h
          rw [hres, hbody] at h
          cases e <;> simp at h
    · rintro ⟨hga, hrec⟩
      rw [hga, hrec] at hbody
      unfold handle
      rw [hres, hbody]

/-- Closed instance of C9: the cookie resolver yields the fixture
session, the user store and the event store both succeed, so the
request is authenticated as the fixture's user. -/
theorem C9_witness :
    (handle
        ⟨⟨some sessionFixture, none⟩, ⟨none, none⟩,
          fun uid => .ok ⟨uid⟩, fun _ _ => none, none⟩).1 =
      .authenticated sessionFixture ⟨"user-id"⟩ :=
  ((C9_resolve_fetches_user_and_records_access_in_tx
      ⟨⟨some sessionFixture, none⟩, ⟨none, none⟩,
        fun uid => .ok ⟨uid⟩, fun _ _ => none, none⟩
      sessionFixture rfl rfl).2.2 ⟨"user-id"⟩).mpr ⟨rfl, rfl⟩

/-- C10: a request presenting no session credentials (both resolvers
return no session and no error) triggers no user-record lookup and no
access-event recording — the trace holds only the transaction bracket
and the two resolver calls — and the request proceeds downstream
anonymously. -/
theorem C10_no_credentials_no_lookup_no_record (env : MWEnv)
    (h1 : env.idp = ⟨none, none⟩) (h2 : env.atk = ⟨none, none⟩)
    (hb : env.beginTx = none) :
    resolve env =
        ((none, none, none), [.txBegin, .resolverCall 0, .resolverCall 1, .txRollback]) ∧
      (∀ uid, MWEvent.getAuthCall uid ∉ (resolve env).2) ∧
      (∀ ev, MWEvent.recordAccessCall ev ∉ (resolve env).2) ∧
      (handle env).1 = .anonymous := by
  obtain ⟨idp, atk, ga, ra, bt⟩ := env
  simp only at h1 h2 hb
  subst h1; subst h2; subst hb
  refine ⟨rfl, ?_, ?_, rfl⟩
  · intro uid
    simp [resolve, readOnlyWrap, resolveBody, resolveSession, resolveSessionLoop,
      resolverEvents, resolversInvoked]
  · intro ev
    simp [resolve, readOnlyWrap, resolveBody, resolveSession, resolveSessionLoop,
      resolverEvents, resolversInvoked]

/-- Success characterization of `GetByToken`: a well-shaped token whose
embedded ID finds a stored session, matching the stored field of the
requested kind, of the current client, and passing the client-validity
and expiry gate, resolves to that session. -/
lemma getByToken_ok (ctx : ProviderCtx) (st : ProviderState) (s : Session)
    (token secret : String) (kind : SessionTokenKind)
    (hdec : decodeToken token = some (s.id, secret)) (hsec : secret ≠ "")
    (hstore : storeGet st.sessions s.id = some s)
    (hexp : (match kind with
      | SessionTokenKind.accessToken => s.accessToken
      | SessionTokenKind.refreshToken => s.refreshToken) = token)
    (htne : token ≠ "")
    (hcid : s.clientID = ctx.clientID)
    (hvalid : clientValidFor ctx s kind = true) :
    GetByToken ctx st token kind = .ok s := by
  simp only [GetByToken, hdec, hstore]
  rw [if_neg hsec, hexp, if_neg htne, if_neg (fun h => h rfl), if_neg (fun h => h hcid)]
  simp [hvalid]

/-- After deleting `sessionID`, the store lookup for `sessionID` finds
nothing. -/
lemma storeGet_filter_ne (l : List Session) (sessionID : String) :
    storeGet (l.filter (fun s => s.id ≠ sessionID)) sessionID = none := by
  induction l with
  | nil => rfl
  | cons a l ih =>
    rw [List.filter_cons]
    by_cases h : a.id = sessionID
    · have hp : (decide (a.id ≠ sessionID)) = false := by simp [h]
      rw [hp]
      simpa using ih
    · have hp : (decide (a.id ≠ sessionID)) = true := by simp [h]
      rw [hp]
      simp only [if_true]
      unfold storeGet
      rw [List.find?_cons_of_neg]
      · exact ih
      · simp [h]

/-- Closed instance of C10: concrete environment with no credentials;
the trace is the bare transaction bracket around the two resolver calls
and the outcome is anonymous. -/
theorem C10_witness :
    resolve ⟨⟨none, none⟩, ⟨none, none⟩, fun uid => .ok ⟨uid⟩, fun _ _ => none, none⟩ =
        ((none, none, none), [.txBegin, .resolverCall 0, .resolverCall 1, .txRollback]) ∧
      (handle ⟨⟨none, none⟩, ⟨none, none⟩, fun uid => .ok ⟨uid⟩, fun _ _ => none, none⟩).1 =
        .anonymous :=
  ⟨(C10_no_credentials_no_lookup_no_record
      ⟨⟨none, none⟩, ⟨none, none⟩, fun uid => .ok ⟨uid⟩, fun _ _ => none, none⟩
      rfl rfl rfl).1,
    (C10_no_credentials_no_lookup_no_record
      ⟨⟨none, none⟩, ⟨none, none⟩, fun uid => .ok ⟨uid⟩, fun _ _ => none, none⟩
      rfl rfl rfl).2.2.2⟩

/-- C2 counterexample, mirroring the test "should reject if session is
expired" (`provider_impl_test.go:218–223`): the `web-app` configuration
has `AccessTokenLifetime = 0` (and every other lifetime zero, client
present and enabled), the stored access token matches and is of the
requested kind and client — yet after advancing the clock `GetByToken`
rejects the session, so a zero `AccessTokenLifetime` is not "no
limit". -/
theorem C2_counterexample :
    cfgZero.accessTokenLifetime = 0 ∧ cfgZero.disabled = false ∧
      ctxLater.clientConfigs sessionFixture.clientID = some cfgZero ∧
      sessionFixture.clientID = ctxLater.clientID ∧
      sessionFixture.accessToken = "session-id.access-token" ∧
      GetByToken ctxLater stFixture "session-id.access-token" .accessToken =
        .error .sessionNotFound := by decide

/-- C2 amended: with a zero `SessionIdleTimeout` the idle dimension
imposes no expiry, and a zero `RefreshTokenLifetime` imposes no expiry
on refresh-kind lookups — `GetByToken` succeeds at any later time when
the other validity conditions hold; but a zero `AccessTokenLifetime` is
not "no limit": the access-kind expiry check fires exactly when the
instant has passed `AccessTokenCreatedAt`. -/
theorem C2_zero_lifetime_amended (ctx : ProviderCtx) (st : ProviderState) (s : Session)
    (cfg : APIClientConfiguration) (token secret : String)
    (hidle : cfg.sessionIdleTimeout = 0) :
    (cfg.refreshTokenLifetime = 0 →
      checkSessionExpired s ctx.now cfg .refreshToken = false) ∧
    (cfg.accessTokenLifetime = 0 →
      (checkSessionExpired s ctx.now cfg .accessToken = true ↔
        s.accessTokenCreatedAt < ctx.now)) ∧
    (cfg.refreshTokenLifetime = 0 →
      decodeToken token = some (s.id, secret) → secret ≠ "" →
      storeGet st.sessions s.id = some s → s.refreshToken = token →
      s.clientID = ctx.clientID →
      ctx.clientConfigs s.clientID = some cfg → cfg.disabled = false →
      GetByToken ctx st token .refreshToken = .ok s) := by
  refine ⟨?_, ?_, ?_⟩
  · intro hrl
    simp [checkSessionExpired, hidle, hrl]
  · intro hal
    simp [checkSessionExpired, hidle, hal]
  · intro hrl hdec hsec hstore hrt hcid hcfg hdis
    have htne : token ≠ "" := by
      intro h0
      rw [h0] at hdec
      exact Option.noConfusion hdec
    refine getByToken_ok ctx st s token secret .refreshToken hdec hsec hstore hrt htne hcid ?_
    unfold clientValidFor
    rw [hcfg]
    simp [hdis, checkSessionExpired, hidle, hrl]

/-- Closed instance of the amended C2: with the all-zero configuration
and the clock advanced 1000000 seconds, the refresh-kind lookup still
succeeds (idle and refresh dimensions impose no limit). -/
theorem C2_witness :
    checkSessionExpired sessionFixture ctxLater.now cfgZero .refreshToken = false ∧
      GetByToken ctxLater stFixture "session-id.refresh-token" .refreshToken =
        .ok sessionFixture := by
  have h := C2_zero_lifetime_amended ctxLater stFixture sessionFixture cfgZero
    "session-id.refresh-token" "refresh-token" rfl
  exact ⟨h.1 rfl, h.2.2 rfl (by decide) (by decide) (by decide) rfl rfl (by decide) rfl⟩

/-- C3 counterexample: at creation the provider sets `InitialAccess` to
the freshly built access event but leaves `LastAccess` at its zero value
(the test's expected session literal of `provider_impl_test.go:60–71`
omits `LastAccess` under a deep-equality comparison), so "both
InitialAccess and LastAccess equal the access event newly built" fails
on a concrete `Create` run whose event is non-zero. -/
theorem C3_counterexample :
    (Create ctxT0 ⟨[], [], 0⟩ "user-id" "principal-id").1.initialAccess =
        newAccessEvent ctxT0.now ctxT0.req ∧
      (Create ctxT0 ⟨[], [], 0⟩ "user-id" "principal-id").1.lastAccess ≠
        newAccessEvent ctxT0.now ctxT0.req := by decide

/-- C3 amended: every successful `Create(userID, principalID)` at `now`
stamps `CreatedAt = AccessedAt = AccessTokenCreatedAt = now`, sets
`InitialAccess` to the access event newly built from `now` and the
current request, appends that same event to the access-event store, and
persists the session — while `LastAccess` is left at its zero value, not
set to the new event. -/
theorem C3_create_stamps (ctx : ProviderCtx) (st : ProviderState)
    (userID principalID : String) :
    (Create ctx st userID principalID).1.createdAt = ctx.now ∧
      (Create ctx st userID principalID).1.accessedAt = ctx.now ∧
      (Create ctx st userID principalID).1.accessTokenCreatedAt = ctx.now ∧
      (Create ctx st userID principalID).1.userID = userID ∧
      (Create ctx st userID principalID).1.principalID = principalID ∧
      (Create ctx st userID principalID).1.initialAccess =
        newAccessEvent ctx.now ctx.req ∧
      (Create ctx st userID principalID).1.lastAccess = AccessEvent.zero ∧
      (Create ctx st userID principalID).2.accessEvents =
        st.accessEvents ++ [newAccessEvent ctx.now ctx.req] ∧
      (Create ctx st userID principalID).2.sessions =
        st.sessions ++ [(Create ctx st userID principalID).1] :=
  ⟨rfl, rfl, rfl, rfl, rfl, rfl, rfl, rfl, rfl⟩

/-- C4: `List(userID)` returns exactly the stored sessions whose
`UserID` equals `userID` and which pass the same client-validity and
expiry gate as `GetByToken` (owning client's configuration exists,
client not disabled, not expired at the current instant under the
access-token kind); sessions of other users and expired or
disabled-client sessions are never included. -/
theorem C4_list_exactly_valid_sessions (ctx : ProviderCtx) (st : ProviderState)
    (userID : String) (s : Session) :
    s ∈ ListSessions ctx st userID ↔
      s ∈ st.sessions ∧ s.userID = userID ∧
        ∃ cfg, ctx.clientConfigs s.clientID = some cfg ∧ cfg.disabled = false ∧
          checkSessionExpired s ctx.now cfg .accessToken = false := by
  unfold ListSessions clientValidFor
  rw [List.mem_filter]
  cases h : ctx.clientConfigs s.clientID with
  | none => simp [h]
  | some cfg => simp [h, and_assoc]

/-- C5: for a stored session whose tokens are well-shaped (each embeds
the session's own ID) and distinct, presenting the access token under
the refresh kind, or the refresh token under the access kind, yields
`ErrSessionNotFound`: the comparison is only against the stored field of
the requested kind. -/
theorem C5_kind_mismatch_not_found (ctx : ProviderCtx) (st : ProviderState) (s : Session)
    (asec rsec : String)
    (hstore : storeGet st.sessions s.id = some s)
    (ha : decodeToken s.accessToken = some (s.id, asec))
    (hrt : decodeToken s.refreshToken = some (s.id, rsec))
    (hne : s.accessToken ≠ s.refreshToken) :
    GetByToken ctx st s.accessToken .refreshToken = .error .sessionNotFound ∧
      GetByToken ctx st s.refreshToken .accessToken = .error .sessionNotFound := by
  constructor
  · simp only [GetByToken, ha, hstore]
    by_cases hs : asec = ""
    · rw [if_pos hs]
    · rw [if_neg hs]
      by_cases hr0 : s.refreshToken = ""
      · rw [if_pos hr0]
      · rw [if_neg hr0, if_pos hne]
  · simp only [GetByToken, hrt, hstore]
    by_cases hs : rsec = ""
    · rw [if_pos hs]
    · rw [if_neg hs]
      by_cases ha0 : s.accessToken = ""
      · rw [if_pos ha0]
      · rw [if_neg ha0, if_pos (Ne.symm hne)]

/-- Closed instance of C5 on the test fixture (`session-id.access-token`
vs `session-id.refresh-token`, `provider_impl_test.go:153–161`). -/
theorem C5_witness :
    GetByToken ctxT0 stFixture sessionFixture.accessToken .refreshToken =
        .error .sessionNotFound ∧
      GetByToken ctxT0 stFixture sessionFixture.refreshToken .accessToken =
        .error .sessionNotFound :=
  C5_kind_mismatch_not_found ctxT0 stFixture sessionFixture
    "access-token" "refresh-token" (by decide) (by decide) (by decide) (by decide)

/-- C6: a token whose secret component is empty (it ends at the
delimiter with nothing after it) is rejected as `ErrSessionNotFound` for
every store — in particular even when the stored field of the requested
kind is the empty string — and for every kind. -/
theorem C6_empty_secret_never_matches (ctx : ProviderCtx) (st : ProviderState)
    (token id : String) (kind : SessionTokenKind)
    (hdec : decodeToken token = some (id, "")) :
    GetByToken ctx st token kind = .error .sessionNotFound := by
  simp only [GetByToken, hdec]
  simp

/-- Closed instance of C6 mirroring `provider_impl_test.go:163–171`: the
stored access token is the empty string and the presented token is
`"session-id."`; the lookup still fails. -/
theorem C6_witness :
    GetByToken ctxT0 stEmptyAccessToken "session-id." .accessToken =
      .error .sessionNotFound :=
  C6_empty_secret_never_matches ctxT0 stEmptyAccessToken "session-id." "session-id"
    .accessToken (by decide)

/-- C7: after `Access`, the session's `AccessedAt` is the current
instant and `LastAccess` is the access event newly computed from the
current request, while `InitialAccess`, `CreatedAt` and both token
fields (and `AccessTokenCreatedAt`) are unchanged; the new event is
appended to the access-event store. -/
theorem C7_access_updates_frame (ctx : ProviderCtx) (st : ProviderState) (s : Session) :
    (Access ctx st s).1.accessedAt = ctx.now ∧
      (Access ctx st s).1.lastAccess = newAccessEvent ctx.now ctx.req ∧
      (Access ctx st s).1.initialAccess = s.initialAccess ∧
      (Access ctx st s).1.createdAt = s.createdAt ∧
      (Access ctx st s).1.accessToken = s.accessToken ∧
      (Access ctx st s).1.refreshToken = s.refreshToken ∧
      (Access ctx st s).1.accessTokenCreatedAt = s.accessTokenCreatedAt ∧
      (Access ctx st s).2.accessEvents =
        st.accessEvents ++ [newAccessEvent ctx.now ctx.req] :=
  ⟨rfl, rfl, rfl, rfl, rfl, rfl, rfl, rfl⟩

/-- C8: `Invalidate` succeeds for every ID (it total-functionally
returns the new store): deleting an unknown ID leaves the store entirely
unchanged, and after deleting a present ID every `GetByToken` whose
token decodes to that session's ID — in particular both of the session's
own tokens — returns `ErrSessionNotFound`. -/
theorem C8_invalidate_idempotent (ctx : ProviderCtx) (st : ProviderState)
    (sessionID : String) :
    ((∀ s ∈ st.sessions, s.id ≠ sessionID) → Invalidate st sessionID = st) ∧
      (∀ token secret kind, decodeToken token = some (sessionID, secret) →
        GetByToken ctx (Invalidate st sessionID) token kind =
          .error .sessionNotFound) := by
  constructor
  · intro h
    unfold Invalidate
    have : st.sessions.filter (fun s => s.id ≠ sessionID) = st.sessions := by
      rw [List.filter_eq_self]
      intro a ha
      simpa using h a ha
    rw [this]
  · intro token secret kind hdec
    simp only [GetByToken, hdec, Invalidate]
    by_cases hs : secret = ""
    · rw [if_pos hs]
    · rw [if_neg hs, storeGet_filter_ne]

/-- Closed instance of C8 mirroring `provider_impl_test.go:254–276`:
deleting `session-id-unknown` leaves the fixture store unchanged, and
after deleting `session-id` the session's access token no longer
resolves. -/
theorem C8_witness :
    Invalidate stFixture "session-id-unknown" = stFixture ∧
      GetByToken ctxT0 (Invalidate stFixture "session-id")
          "session-id.access-token" .accessToken = .error .sessionNotFound :=
  ⟨(C8_invalidate_idempotent ctxT0 stFixture "session-id-unknown").1 (by decide),
    (C8_invalidate_idempotent ctxT0 stFixture "session-id").2
      "session-id.access-token" "access-token" .accessToken (by decide)⟩

end Skygear
